import Mathlib

/-!
Verification development for the gravital-visualization physics and
adaptive-rendering core: the custom orbital force
(`src/packages/core/src/physics/OrbitalForce.ts`), the particle flow
engine (`src/packages/core/src/rendering/LinkObjects.ts`), the
performance monitor quality classifier
(`src/packages/core/src/utils/ResourceManager.ts`), and the shared
resource pools for node and link rendering.

Numeric values are modelled over `ℚ`; the transcendental primitives the
code takes from the host math library (`Math.sqrt`, `Math.cos`,
`Math.sin`, `Math.PI`, `Date.now`) are supplied through a `MathEnv`
record of rational-valued functions, and theorems that depend on the
defining property of the square root take that property as an explicit
hypothesis at the argument where it is used.
-/

/-- Host math primitives used by the code: `Math.sqrt`, `Math.cos`,
`Math.sin`, the constant `Math.PI`, and the wall clock `Date.now()`. -/
structure MathEnv where
  sqrt : ℚ → ℚ
  cos : ℚ → ℚ
  sin : ℚ → ℚ
  pi : ℚ
  now : ℚ

/-- A simulation node (`Token`): identity, kind tag
(`"root" | "branch" | "leaf"`), position, velocity, size. -/
structure Node where
  id : String
  type : String
  x : ℚ
  y : ℚ
  z : ℚ
  vx : ℚ
  vy : ℚ
  vz : ℚ
  size : ℚ
deriving DecidableEq, Repr

/-- A link endpoint is either a resolved node object or a bare string id
(`typeof link.source === 'object'` distinguishes the two in the code). -/
inductive Endpoint where
  | obj (n : Node)
  | ref (id : String)
deriving DecidableEq, Repr

/-- A link: source and target endpoints, scalar value, optional color. -/
structure Link where
  source : Endpoint
  target : Endpoint
  value : ℚ
  color : Option ℤ := none
deriving DecidableEq, Repr

/-- The filter predicate of `OrbitalForce.ts` lines 34-51: a link
qualifies as a parent link for `node` when both endpoints are resolved
objects and the far endpoint of `node` is typed `branch` or `root`. -/
def isParentLink (node : Node) (link : Link) : Bool :=
  match link.source, link.target with
  | .obj s, .obj t =>
      (s.id == node.id && (t.type == "branch" || t.type == "root")) ||
      (t.id == node.id && (s.type == "branch" || s.type == "root"))
  | _, _ => false

/-- `calculateOrbitRadius` (`OrbitalForce.ts` lines 98-104):
`parent.size + node.size + 10` plus `linkValue ? 30 / max(linkValue, 1) : 30`. -/
def calculateOrbitRadius (parent node : Node) (linkValue : ℚ) : ℚ :=
  let baseRadius := parent.size + node.size + 10
  let valueAdjustment := if linkValue ≠ 0 then 30 / max linkValue 1 else 30
  baseRadius + valueAdjustment

/-- Lines 84-93 of `OrbitalForce.ts`: given the vector `(dx, dy, dz)`
from the node to its orbital target, compute
`distance = sqrt(dx² + dy² + dz²)`; return the node untouched when the
distance is exactly zero, otherwise add
`(d / distance) * min(distance, 2) * alpha * strength` to the velocity. -/
def applyVelocityKick (sqrtf : ℚ → ℚ) (node : Node)
    (dx dy dz alpha strength : ℚ) : Node :=
  let distance := sqrtf (dx * dx + dy * dy + dz * dz)
  if distance = 0 then node
  else
    let forceMagnitude := min distance 2 * alpha * strength
    { node with
        vx := node.vx + dx / distance * forceMagnitude,
        vy := node.vy + dy / distance * forceMagnitude,
        vz := node.vz + dz / distance * forceMagnitude }

/-- The body of `nodes.forEach` in the force function of
`OrbitalForce.ts` (lines 29-94): root nodes return unchanged; otherwise
find the first parent link, compute the orbital target from wall-clock
time, plane offset and orbit radius, and apply the velocity kick. -/
def forceNode (env : MathEnv) (strength : ℚ) (nodes : List Node)
    (links : List Link) (alpha : ℚ) (node : Node) : Node :=
  if node.type = "root" then node
  else
    match links.filter (fun l => isParentLink node l) with
    | [] => node
    | parentLink :: _ =>
      match parentLink.source, parentLink.target with
      | .obj s, .obj t =>
        let parent := if s.id = node.id then t else s
        let nodeIndex : ℤ :=
          match nodes.findIdx? (fun n => n.id == node.id) with
          | some i => (i : ℤ)
          | none => -1
        let orbitSpeed :=
          if node.type = "leaf" then (1 / 4000 : ℚ) * strength
          else (1 / 10000 : ℚ) * strength
        let orbitRadius := calculateOrbitRadius parent node parentLink.value
        let planeOffset :=
          ((Int.tmod nodeIndex 5 : ℤ) : ℚ) * (env.pi / 10) + env.pi / 20
        let angle := env.now * orbitSpeed + (Int.cast nodeIndex : ℚ) * (env.pi / 6)
        let targetX := parent.x + env.cos angle * orbitRadius
        let targetY := parent.y + env.sin angle * orbitRadius * env.cos planeOffset
        let targetZ := parent.z + env.sin angle * orbitRadius * env.sin planeOffset
        applyVelocityKick env.sqrt node
          (targetX - node.x) (targetY - node.y) (targetZ - node.z) alpha strength
      | _, _ => node

/-- One invocation of the force function (`force(alpha)` in
`OrbitalForce.ts` lines 24-95): short-circuit when `strength ≤ 0`,
otherwise process each node of the bound collection. -/
def orbitalForceTick (env : MathEnv) (strength : ℚ) (nodes : List Node)
    (links : List Link) (alpha : ℚ) : List Node :=
  if strength ≤ 0 then nodes
  else nodes.map (forceNode env strength nodes links alpha)

/-- A concrete math environment used to evaluate the model at concrete
inputs: the square root is the identity and the trigonometric
primitives are constantly zero. -/
def plainEnv : MathEnv :=
  { sqrt := fun q => q, cos := fun _ => 0, sin := fun _ => 0, pi := 0, now := 0 }

/-- A node constructor fixing everything except the size, used to state
the radius examples. -/
def sizedNode (s : ℚ) : Node :=
  { id := "n", type := "leaf", x := 0, y := 0, z := 0,
    vx := 0, vy := 0, vz := 0, size := s }

theorem orbitalForceTick_length (env : MathEnv) (strength : ℚ)
    (nodes : List Node) (links : List Link) (alpha : ℚ) :
    (orbitalForceTick env strength nodes links alpha).length = nodes.length := by
  unfold orbitalForceTick
  split <;> simp

/-- C4: invoking the orbital force with strength 0 leaves every node
(and in particular every velocity component) unchanged: the call is a
no-op on the node collection. -/
theorem orbitalForceTick_zero_strength (env : MathEnv) (nodes : List Node)
    (links : List Link) (alpha : ℚ) :
    orbitalForceTick env 0 nodes links alpha = nodes := by
  unfold orbitalForceTick
  simp

/-- C1: a node whose kind is `root` has its velocity components left
unchanged by any invocation of the orbital force, for every alpha,
strength, link collection and math environment. -/
theorem orbitalForceTick_root_unchanged (env : MathEnv) (strength alpha : ℚ)
    (nodes : List Node) (links : List Link) (i : ℕ) (n : Node)
    (hn : nodes[i]? = some n) (hroot : n.type = "root") :
    ∃ m : Node, (orbitalForceTick env strength nodes links alpha)[i]? = some m ∧
      m.vx = n.vx ∧ m.vy = n.vy ∧ m.vz = n.vz := by
  unfold orbitalForceTick
  by_cases hs : strength ≤ 0
  · exact ⟨n, by simp [hs, hn]⟩
  · refine ⟨forceNode env strength nodes links alpha n, ?_, ?_⟩
    · simp [hs, List.getElem?_map, hn]
    · simp [forceNode, hroot]

/-- C1 witness: a concrete one-node collection where the node is a root. -/
theorem orbitalForceTick_root_unchanged_witness :
    ∃ m : Node,
      (orbitalForceTick plainEnv 1
        [{ id := "r", type := "root", x := 1, y := 2, z := 3,
           vx := 4, vy := 5, vz := 6, size := 7 }] [] 1)[0]? = some m ∧
      m.vx = 4 ∧ m.vy = 5 ∧ m.vz = 6 :=
  orbitalForceTick_root_unchanged plainEnv 1 1
    [{ id := "r", type := "root", x := 1, y := 2, z := 3,
       vx := 4, vy := 5, vz := 6, size := 7 }] [] 0
    { id := "r", type := "root", x := 1, y := 2, z := 3,
      vx := 4, vy := 5, vz := 6, size := 7 } (by decide) (by decide)

theorem calculateOrbitRadius_eq_div_max (p n : Node) (v : ℚ) :
    calculateOrbitRadius p n v = p.size + n.size + 10 + 30 / max v 1 := by
  unfold calculateOrbitRadius
  by_cases hv : v = 0
  · subst hv
    rw [max_eq_right (by norm_num : (0:ℚ) ≤ 1)]
    norm_num
  · simp [hv]

/-- C3: the orbit radius is `parent.size + node.size + 10` plus
`30 / max(value, 1)` for a positive link value and `30` otherwise; it is
antitone in the link value, and the two worked examples
(sizes 10 and 2, values 1 and 5) give 52 and 28. -/
theorem calculateOrbitRadius_spec (p n : Node) (v v1 v2 : ℚ) (h12 : v1 ≤ v2) :
    calculateOrbitRadius p n v
      = p.size + n.size + 10 + (if 0 < v then 30 / max v 1 else 30)
    ∧ calculateOrbitRadius p n v2 ≤ calculateOrbitRadius p n v1
    ∧ calculateOrbitRadius (sizedNode 10) (sizedNode 2) 1 = 52
    ∧ calculateOrbitRadius (sizedNode 10) (sizedNode 2) 5 = 28 := by
  refine ⟨?_, ?_, ?_, ?_⟩
  · rw [calculateOrbitRadius_eq_div_max]
    by_cases hv : 0 < v
    · rw [if_pos hv]
    · rw [if_neg hv, max_eq_right (le_trans (not_lt.mp hv) zero_le_one)]
      norm_num
  · rw [calculateOrbitRadius_eq_div_max, calculateOrbitRadius_eq_div_max]
    have h1 : (0:ℚ) < max v1 1 := lt_max_of_lt_right one_pos
    have h2 : max v1 1 ≤ max v2 1 := max_le_max h12 le_rfl
    gcongr
  · rw [calculateOrbitRadius_eq_div_max, max_self]
    simp [sizedNode]
    norm_num
  · rw [calculateOrbitRadius_eq_div_max,
      max_eq_left (by norm_num : (1:ℚ) ≤ 5)]
    simp [sizedNode]
    norm_num

/-- C3 witness: concrete instantiation at sizes 10 and 2 with link
values 1 ≤ 5. -/
theorem calculateOrbitRadius_spec_witness :
    calculateOrbitRadius (sizedNode 10) (sizedNode 2) 0
      = (sizedNode 10).size + (sizedNode 2).size + 10
        + (if (0:ℚ) < 0 then 30 / max 0 1 else 30)
    ∧ calculateOrbitRadius (sizedNode 10) (sizedNode 2) 5
        ≤ calculateOrbitRadius (sizedNode 10) (sizedNode 2) 1
    ∧ calculateOrbitRadius (sizedNode 10) (sizedNode 2) 1 = 52
    ∧ calculateOrbitRadius (sizedNode 10) (sizedNode 2) 5 = 28 :=
  calculateOrbitRadius_spec (sizedNode 10) (sizedNode 2) 0 1 5 (by norm_num)

/-- C2: when a node receives an orbital adjustment (distance nonzero),
the squared Euclidean magnitude of the velocity delta equals
`(min(distance, 2) × alpha × strength)²` — so the magnitude is exactly
`min(distance, 2) × alpha × strength` — and that magnitude is bounded
by `2 × alpha × strength` for nonnegative alpha and strength. -/
theorem applyVelocityKick_magnitude (sqrtf : ℚ → ℚ) (node : Node)
    (dx dy dz alpha strength : ℚ)
    (hsq : sqrtf (dx * dx + dy * dy + dz * dz)
        * sqrtf (dx * dx + dy * dy + dz * dz) = dx * dx + dy * dy + dz * dz)
    (hne : sqrtf (dx * dx + dy * dy + dz * dz) ≠ 0)
    (ha : 0 ≤ alpha) (hs : 0 ≤ strength) :
    ((applyVelocityKick sqrtf node dx dy dz alpha strength).vx - node.vx) ^ 2
      + ((applyVelocityKick sqrtf node dx dy dz alpha strength).vy - node.vy) ^ 2
      + ((applyVelocityKick sqrtf node dx dy dz alpha strength).vz - node.vz) ^ 2
      = (min (sqrtf (dx * dx + dy * dy + dz * dz)) 2 * alpha * strength) ^ 2
    ∧ min (sqrtf (dx * dx + dy * dy + dz * dz)) 2 * alpha * strength
        ≤ 2 * alpha * strength := by
  set d := sqrtf (dx * dx + dy * dy + dz * dz) with hd
  set M := min d 2 * alpha * strength with hM
  constructor
  · simp only [applyVelocityKick, if_neg hne, ← hd, ← hM]
    have hcancel : ∀ a b : ℚ, a + b - a = b := fun a b => by ring
    rw [hcancel, hcancel, hcancel]
    calc (dx / d * M) ^ 2 + (dy / d * M) ^ 2 + (dz / d * M) ^ 2
        = (dx * dx + dy * dy + dz * dz) * (M / d) ^ 2 := by ring
      _ = (d * d) * (M / d) ^ 2 := by rw [hsq]
      _ = M ^ 2 := by
          field_simp
          ring
  · have h2 : min d 2 ≤ 2 := min_le_right d 2
    calc min d 2 * alpha * strength
        ≤ 2 * alpha * strength := by
          apply mul_le_mul_of_nonneg_right _ hs
          exact mul_le_mul_of_nonneg_right h2 ha

/-- C2 witness: square root stub returning 3 on the squared norm 9 of
the vector (3, 0, 0), with alpha and strength 1. -/
theorem applyVelocityKick_magnitude_witness :
    ((applyVelocityKick (fun _ => 3) (sizedNode 1) 3 0 0 1 1).vx
        - (sizedNode 1).vx) ^ 2
      + ((applyVelocityKick (fun _ => 3) (sizedNode 1) 3 0 0 1 1).vy
        - (sizedNode 1).vy) ^ 2
      + ((applyVelocityKick (fun _ => 3) (sizedNode 1) 3 0 0 1 1).vz
        - (sizedNode 1).vz) ^ 2
      = (min ((fun _ => (3:ℚ)) ((3:ℚ) * 3 + 0 * 0 + 0 * 0)) 2 * 1 * 1) ^ 2
    ∧ min ((fun _ => (3:ℚ)) ((3:ℚ) * 3 + 0 * 0 + 0 * 0)) 2 * 1 * 1
        ≤ 2 * 1 * 1 :=
  applyVelocityKick_magnitude (fun _ => 3) (sizedNode 1) 3 0 0 1 1
    (by norm_num) (by norm_num) (by norm_num) (by norm_num)

/-- A 3D point or vector with rational coordinates. -/
structure Vec3 where
  x : ℚ
  y : ℚ
  z : ℚ
deriving DecidableEq, Repr

/-- The `__metadata` record stored on a particle system
(`LinkObjects.ts` lines 209-216): particle count, movement speed,
cached segment length, direction vector, per-particle offsets. -/
structure ParticleMetadata where
  count : ℕ
  speed : ℚ
  length : ℚ
  dir : Vec3
  offsets : List ℚ
deriving DecidableEq, Repr

/-- A particle system (`THREE.Points` plus its attached metadata and the
particle position buffer, with the point material's color and size). -/
structure ParticleSystem where
  metadata : ParticleMetadata
  positions : List Vec3
  color : ℤ
  size : ℚ
deriving DecidableEq, Repr

/-- `createParticleSystem` (`LinkObjects.ts` lines 158-219): direction
is the raw (unnormalized) source-to-target vector, length its Euclidean
norm; each particle draws an offset from the host random stream
(`Math.random()`, modelled as `randoms`) and starts at
`source + dir * offset`. -/
def createParticleSystem (env : MathEnv) (randoms : ℕ → ℚ)
    (source target : Vec3) (color : ℤ) (speed : ℚ) (count : ℕ)
    (size : ℚ) : ParticleSystem :=
  let dir : Vec3 := ⟨target.x - source.x, target.y - source.y, target.z - source.z⟩
  let length := env.sqrt (dir.x * dir.x + dir.y * dir.y + dir.z * dir.z)
  let offsets := (List.range count).map randoms
  let positions := offsets.map (fun o =>
    (⟨source.x + dir.x * o, source.y + dir.y * o, source.z + dir.z * o⟩ : Vec3))
  { metadata := { count := count, speed := speed, length := length,
                  dir := dir, offsets := offsets },
    positions := positions, color := color, size := size }

/-- `updateParticles` (`LinkObjects.ts` lines 224-270): recompute the
segment from the current endpoints; return the system unchanged when the
length is zero; otherwise normalize the direction, advance every offset
by `speed` with a single-step wrap (`offset > 1` → subtract 1), and
recompute every particle position from its new offset. -/
def updateParticles (env : MathEnv) (particleSystem : ParticleSystem)
    (source target : Vec3) : ParticleSystem :=
  let dx := target.x - source.x
  let dy := target.y - source.y
  let dz := target.z - source.z
  let length := env.sqrt (dx * dx + dy * dy + dz * dz)
  if length = 0 then particleSystem
  else
    let ux := dx / length
    let uy := dy / length
    let uz := dz / length
    let speed := particleSystem.metadata.speed
    let newOffsets := particleSystem.metadata.offsets.map (fun o =>
      let o2 := o + speed
      if 1 < o2 then o2 - 1 else o2)
    { particleSystem with
        metadata := { particleSystem.metadata with
                        dir := ⟨ux, uy, uz⟩, length := length,
                        offsets := newOffsets },
        positions := newOffsets.map (fun o =>
          (⟨source.x + ux * length * o,
            source.y + uy * length * o,
            source.z + uz * length * o⟩ : Vec3)) }

/-- C7: degenerate geometry is a silent per-element no-op. An update
whose endpoints coincide (zero-length segment, given the square root of
zero is zero) returns the particle system unchanged, positions
included; and a node whose distance to its orbital target is exactly
zero receives no velocity change from the orbital force. -/
theorem degenerate_geometry_noop :
    (∀ (env : MathEnv) (particleSystem : ParticleSystem) (p : Vec3),
      env.sqrt 0 = 0 → updateParticles env particleSystem p p = particleSystem)
    ∧ (∀ (sqrtf : ℚ → ℚ) (node : Node) (dx dy dz alpha strength : ℚ),
      sqrtf (dx * dx + dy * dy + dz * dz) = 0 →
        applyVelocityKick sqrtf node dx dy dz alpha strength = node) := by
  constructor
  · intro env particleSystem p h
    unfold updateParticles
    simp [h]
  · intro sqrtf node dx dy dz alpha strength h
    unfold applyVelocityKick
    simp [h]

/-- C7 witness: a concrete coincident-endpoint update and a concrete
zero-distance velocity kick. -/
theorem degenerate_geometry_noop_witness :
    updateParticles plainEnv
      (createParticleSystem plainEnv (fun _ => 1/2) ⟨0, 0, 0⟩ ⟨1, 0, 0⟩
        0xaaaaaa (1/200) 2 1) ⟨5, 6, 7⟩ ⟨5, 6, 7⟩
      = createParticleSystem plainEnv (fun _ => 1/2) ⟨0, 0, 0⟩ ⟨1, 0, 0⟩
        0xaaaaaa (1/200) 2 1
    ∧ applyVelocityKick (fun _ => 0) (sizedNode 3) 0 0 0 1 1 = sizedNode 3 :=
  ⟨degenerate_geometry_noop.1 plainEnv
      (createParticleSystem plainEnv (fun _ => 1/2) ⟨0, 0, 0⟩ ⟨1, 0, 0⟩
        0xaaaaaa (1/200) 2 1) ⟨5, 6, 7⟩ (by norm_num [plainEnv]),
    degenerate_geometry_noop.2 (fun _ => 0) (sizedNode 3) 0 0 0 1 1 rfl⟩

theorem updateParticles_speed (env : MathEnv) (particleSystem : ParticleSystem)
    (source target : Vec3) :
    (updateParticles env particleSystem source target).metadata.speed
      = particleSystem.metadata.speed := by
  simp only [updateParticles]
  split <;> rfl

theorem wrapStep_bounds (s o : ℚ) (hs0 : 0 < s) (hs1 : s < 1)
    (h0 : 0 ≤ o) (h1 : o ≤ 1) :
    0 ≤ (if 1 < o + s then o + s - 1 else o + s)
    ∧ (if 1 < o + s then o + s - 1 else o + s) ≤ 1 := by
  by_cases hgt : 1 < o + s
  · rw [if_pos hgt]
    constructor <;> linarith
  · rw [if_neg hgt]
    have := not_lt.mp hgt
    constructor <;> linarith

theorem updateParticles_offsets_bounds (env : MathEnv)
    (particleSystem : ParticleSystem) (source target : Vec3)
    (hs0 : 0 < particleSystem.metadata.speed)
    (hs1 : particleSystem.metadata.speed < 1)
    (hinv : ∀ o ∈ particleSystem.metadata.offsets, 0 ≤ o ∧ o ≤ 1) :
    ∀ o ∈ (updateParticles env particleSystem source target).metadata.offsets,
      0 ≤ o ∧ o ≤ 1 := by
  simp only [updateParticles]
  split
  · exact hinv
  · intro o ho
    simp only [List.mem_map] at ho
    obtain ⟨o0, ho0, rfl⟩ := ho
    obtain ⟨h0, h1⟩ := hinv o0 ho0
    exact wrapStep_bounds particleSystem.metadata.speed o0 hs0 hs1 h0 h1

theorem foldl_updateParticles_offsets_bounds (env : MathEnv)
    (steps : List (Vec3 × Vec3)) (particleSystem : ParticleSystem)
    (hs0 : 0 < particleSystem.metadata.speed)
    (hs1 : particleSystem.metadata.speed < 1)
    (hinv : ∀ o ∈ particleSystem.metadata.offsets, 0 ≤ o ∧ o ≤ 1) :
    ∀ o ∈ (steps.foldl (fun s st => updateParticles env s st.1 st.2)
        particleSystem).metadata.offsets, 0 ≤ o ∧ o ≤ 1 := by
  induction steps generalizing particleSystem with
  | nil => exact hinv
  | cons st rest ih =>
    simp only [List.foldl_cons]
    apply ih
    · rw [updateParticles_speed]
      exact hs0
    · rw [updateParticles_speed]
      exact hs1
    · exact updateParticles_offsets_bounds env particleSystem st.1 st.2 hs0 hs1 hinv

/-- C6 counterexample: with movement speed 1/2 (inside (0, 1)) and an
initial offset 1/2 drawn from [0, 1), one update advances the offset to
exactly 1, which is not wrapped (the code wraps only when the offset
strictly exceeds 1), so the per-particle offset leaves [0, 1). -/
theorem particleOffsets_counterexample :
    (0 < (1/2 : ℚ) ∧ (1/2 : ℚ) < 1)
    ∧ ¬ (∀ o ∈ (updateParticles plainEnv
          (createParticleSystem plainEnv (fun _ => 1/2) ⟨0, 0, 0⟩ ⟨1, 0, 0⟩
            0xaaaaaa (1/2) 1 1)
          ⟨0, 0, 0⟩ ⟨1, 0, 0⟩).metadata.offsets, 0 ≤ o ∧ o < 1) := by
  refine ⟨by norm_num, ?_⟩
  have hoff : (updateParticles plainEnv
      (createParticleSystem plainEnv (fun _ => 1/2) ⟨0, 0, 0⟩ ⟨1, 0, 0⟩
        0xaaaaaa (1/2) 1 1)
      ⟨0, 0, 0⟩ ⟨1, 0, 0⟩).metadata.offsets = [1] := by
    norm_num [updateParticles, createParticleSystem, plainEnv]
  intro h
  have h1 := h 1 (by rw [hoff]; simp)
  exact absurd h1.2 (lt_irrefl 1)

/-- C6 amended: for a particle system created with movement speed in
(0, 1) from host random draws in [0, 1), every per-particle offset lies
in [0, 1) immediately after creation, and stays within the closed
interval [0, 1] after every sequence of updateParticles calls — an
offset that lands exactly on 1 (offset + speed = 1) is kept at 1 for
that frame, because the wrap only fires when the offset strictly
exceeds 1. -/
theorem particleOffsets_amended (env : MathEnv) (randoms : ℕ → ℚ)
    (source target : Vec3) (color : ℤ) (speed : ℚ) (count : ℕ) (size : ℚ)
    (hs0 : 0 < speed) (hs1 : speed < 1)
    (hrand : ∀ i, 0 ≤ randoms i ∧ randoms i < 1)
    (steps : List (Vec3 × Vec3)) :
    (∀ o ∈ (createParticleSystem env randoms source target color speed
        count size).metadata.offsets, 0 ≤ o ∧ o < 1)
    ∧ (∀ o ∈ (steps.foldl (fun s st => updateParticles env s st.1 st.2)
        (createParticleSystem env randoms source target color speed
          count size)).metadata.offsets, 0 ≤ o ∧ o ≤ 1) := by
  have hcreate : ∀ o ∈ (createParticleSystem env randoms source target color
      speed count size).metadata.offsets, 0 ≤ o ∧ o < 1 := by
    intro o ho
    simp only [createParticleSystem, List.mem_map] at ho
    obtain ⟨i, _, rfl⟩ := ho
    exact hrand i
  refine ⟨hcreate, ?_⟩
  apply foldl_updateParticles_offsets_bounds
  · exact hs0
  · exact hs1
  · intro o ho
    exact ⟨(hcreate o ho).1, le_of_lt (hcreate o ho).2⟩

/-- C6 amended witness: concrete one-particle system with speed 1/2 and
a single update step. -/
theorem particleOffsets_amended_witness :
    (∀ o ∈ (createParticleSystem plainEnv (fun _ => 1/2) ⟨0, 0, 0⟩ ⟨1, 0, 0⟩
        0xaaaaaa (1/2) 1 1).metadata.offsets, 0 ≤ o ∧ o < 1)
    ∧ (∀ o ∈ (([(⟨0, 0, 0⟩, ⟨1, 0, 0⟩)] : List (Vec3 × Vec3)).foldl
        (fun s st => updateParticles plainEnv s st.1 st.2)
        (createParticleSystem plainEnv (fun _ => 1/2) ⟨0, 0, 0⟩ ⟨1, 0, 0⟩
          0xaaaaaa (1/2) 1 1)).metadata.offsets, 0 ≤ o ∧ o ≤ 1) :=
  particleOffsets_amended plainEnv (fun _ => 1/2) ⟨0, 0, 0⟩ ⟨1, 0, 0⟩
    0xaaaaaa (1/2) 1 1 (by norm_num) (by norm_num) (fun i => by norm_num)
    [(⟨0, 0, 0⟩, ⟨1, 0, 0⟩)]

/-- Quality detail tier (`'high' | 'medium' | 'low'`). -/
inductive Detail where
  | high
  | medium
  | low
deriving DecidableEq, Repr

/-- Geometry values held by the resource manager: the node pools store
unit spheres with a resolution per axis (`THREE.SphereGeometry`). -/
inductive GeometryData where
  | sphere (radius widthSegments heightSegments : ℕ)
deriving DecidableEq, Repr

/-- Material values held by the resource manager (the transparency flag
and opacity of `THREE.LineBasicMaterial`). -/
structure MaterialData where
  transparent : Bool
  opacity : ℚ
deriving DecidableEq, Repr

/-- Texture values held by the resource manager: the canvas-rendered
particle and glow textures, or the stub texture produced when no
`document` is available (server-side rendering). -/
inductive TextureData where
  | canvasParticle
  | canvasGlow
  | ssrStub
deriving DecidableEq, Repr

/-- Replace the entry for `name` when present, otherwise append it —
the update semantics of `Map.set`. -/
def setEntry {α : Type} (entries : List (String × α)) (name : String)
    (v : α) : List (String × α) :=
  if entries.any (fun p => p.1 = name) then
    entries.map (fun p => if p.1 = name then (name, v) else p)
  else entries ++ [(name, v)]

/-- Look up the entry for `name` — the read semantics of `Map.get`. -/
def getEntry {α : Type} (entries : List (String × α)) (name : String) :
    Option α :=
  (entries.find? (fun p => p.1 = name)).map (fun p => p.2)

/-- The `ResourceManager` of `ResourceManager.ts`: four keyed stores for
geometries, materials, textures and parameters (parameters here are the
natural-number particle budgets the code stores). -/
structure ResourceManager where
  geometries : List (String × GeometryData)
  materials : List (String × MaterialData)
  textures : List (String × TextureData)
  parameters : List (String × ℕ)
deriving DecidableEq, Repr

/-- The freshly constructed manager: all four stores empty. -/
def ResourceManager.empty : ResourceManager :=
  { geometries := [], materials := [], textures := [], parameters := [] }

def ResourceManager.addGeometry (rm : ResourceManager) (name : String)
    (g : GeometryData) : ResourceManager :=
  { rm with geometries := setEntry rm.geometries name g }

def ResourceManager.addMaterial (rm : ResourceManager) (name : String)
    (m : MaterialData) : ResourceManager :=
  { rm with materials := setEntry rm.materials name m }

def ResourceManager.addTexture (rm : ResourceManager) (name : String)
    (t : TextureData) : ResourceManager :=
  { rm with textures := setEntry rm.textures name t }

def ResourceManager.setParameter (rm : ResourceManager) (name : String)
    (v : ℕ) : ResourceManager :=
  { rm with parameters := setEntry rm.parameters name v }

def ResourceManager.getParameter (rm : ResourceManager) (name : String) :
    Option ℕ :=
  getEntry rm.parameters name

/-- `createParticleTexture` (`LinkObjects.ts` lines 53-84): a stub
texture during server-side rendering, otherwise a canvas gradient. -/
def createParticleTexture (hasDocument : Bool) : TextureData :=
  if hasDocument then .canvasParticle else .ssrStub

/-- `createGlowTexture` (NodeObjects source, lines 58-90): same shape
as the particle texture. -/
def createGlowTexture (hasDocument : Bool) : TextureData :=
  if hasDocument then .canvasGlow else .ssrStub

/-- `initLinkResources` (`LinkObjects.ts` lines 14-48), with the
module-level `linkResourceManager` passed as explicit state: an early
return when the manager already exists, otherwise build the particle
texture, the base link material, and the per-tier `maxParticles`
parameter (high 50, medium 25, low 10). -/
def initLinkResources (detail : Detail) (hasDocument : Bool)
    (state : Option ResourceManager) :
    ResourceManager × Option ResourceManager :=
  match state with
  | some rm => (rm, some rm)
  | none =>
    let rm0 := ResourceManager.empty
    let rm1 := rm0.addTexture "particle" (createParticleTexture hasDocument)
    let rm2 := rm1.addMaterial "linkBase" { transparent := true, opacity := 3/5 }
    let maxParticles : ℕ :=
      match detail with
      | .high => 50
      | .medium => 25
      | .low => 10
    let rm3 := rm2.setParameter "maxParticles" maxParticles
    (rm3, some rm3)

/-- The `getResolution` closure of `initNodeResources`: the base
resolution at tier high, `max(8, floor(base * 0.7))` at medium,
`max(6, floor(base * 0.5))` at low. -/
def getResolution (detail : Detail) (base : ℕ) : ℕ :=
  match detail with
  | .high => base
  | .medium => max 8 ((base * 7) / 10)
  | .low => max 6 (base / 2)

/-- `initNodeResources` (NodeObjects source, lines 14-53), with the
module-level `resourceManager` passed as explicit state: an early
return when the manager already exists, otherwise build the three
sphere geometries at the tier's resolution and the glow texture. -/
def initNodeResources (detail : Detail) (hasDocument : Bool)
    (state : Option ResourceManager) :
    ResourceManager × Option ResourceManager :=
  match state with
  | some rm => (rm, some rm)
  | none =>
    let rm0 := ResourceManager.empty
    let rm1 := rm0.addGeometry "rootNode"
      (.sphere 1 (getResolution detail 32) (getResolution detail 32))
    let rm2 := rm1.addGeometry "branchNode"
      (.sphere 1 (getResolution detail 24) (getResolution detail 24))
    let rm3 := rm2.addGeometry "leafNode"
      (.sphere 1 (getResolution detail 16) (getResolution detail 16))
    let rm4 := rm3.addTexture "glow" (createGlowTexture hasDocument)
    (rm4, some rm4)

/-- `disposeLinkResources` (`LinkObjects.ts` lines 289-294): dispose the
managed resources and reset the module state to null. -/
def disposeLinkResources (state : Option ResourceManager) :
    Option ResourceManager :=
  match state with
  | some _ => none
  | none => none

/-- `disposeNodeResources` (NodeObjects source, lines 178-183): same
reset for the node resource pool. -/
def disposeNodeResources (state : Option ResourceManager) :
    Option ResourceManager :=
  match state with
  | some _ => none
  | none => none

/-- `PerformanceMonitor.getRecommendedQualityLevel`
(`ResourceManager.ts` lines 249-260) applied to the most recent rolled
FPS value (an integer, since the monitor stores `Math.round`). -/
def getRecommendedQualityLevel (fps : ℤ) : Detail :=
  if fps < 15 then .low
  else if fps < 30 then .medium
  else .high

/-- C8: the FPS-to-tier mapping uses the half-open intervals
`fps < 15 → low`, `15 ≤ fps < 30 → medium`, `30 ≤ fps → high`; the
examples 10, 25, 60 map to low, medium, high, and the boundary values
15 and 30 map to medium and high. -/
theorem getRecommendedQualityLevel_spec :
    (∀ fps : ℤ, fps < 15 → getRecommendedQualityLevel fps = .low)
    ∧ (∀ fps : ℤ, 15 ≤ fps → fps < 30 → getRecommendedQualityLevel fps = .medium)
    ∧ (∀ fps : ℤ, 30 ≤ fps → getRecommendedQualityLevel fps = .high)
    ∧ getRecommendedQualityLevel 10 = .low
    ∧ getRecommendedQualityLevel 25 = .medium
    ∧ getRecommendedQualityLevel 60 = .high
    ∧ getRecommendedQualityLevel 15 = .medium
    ∧ getRecommendedQualityLevel 30 = .high := by
  refine ⟨?_, ?_, ?_, by decide, by decide, by decide, by decide, by decide⟩
  · intro fps h
    simp [getRecommendedQualityLevel, h]
  · intro fps h1 h2
    simp [getRecommendedQualityLevel, not_lt.mpr h1, h2]
  · intro fps h
    have h15 : ¬ fps < 15 := not_lt.mpr (le_trans (by norm_num) h)
    simp [getRecommendedQualityLevel, not_lt.mpr h, h15]

/-- C8 witness: the interval clauses applied at 10, 25 and 60. -/
theorem getRecommendedQualityLevel_spec_witness :
    getRecommendedQualityLevel 10 = .low
    ∧ getRecommendedQualityLevel 25 = .medium
    ∧ getRecommendedQualityLevel 60 = .high :=
  ⟨getRecommendedQualityLevel_spec.1 10 (by decide),
    getRecommendedQualityLevel_spec.2.1 25 (by decide) (by decide),
    getRecommendedQualityLevel_spec.2.2.1 60 (by decide)⟩

/-- The plain line part of a link renderable: endpoint position buffer,
resolved color, computed opacity. -/
structure LineData where
  positions : List ℚ
  color : ℤ
  opacity : ℚ
deriving DecidableEq, Repr

/-- The group returned by `createLinkObject`: the link line plus the
optional particle system. -/
structure LinkObject where
  line : LineData
  particles : Option ParticleSystem
deriving DecidableEq, Repr

/-- Endpoint position used by `createLinkObject` (lines 105-106):
the node's coordinates when the endpoint is a resolved object,
otherwise the origin. -/
def endpointPos (e : Endpoint) : Vec3 :=
  match e with
  | .obj n => ⟨n.x, n.y, n.z⟩
  | .ref _ => ⟨0, 0, 0⟩

/-- `createLinkObject` (`LinkObjects.ts` lines 89-153), with the module
state passed explicitly: ensure the resource pool exists (building it
at the default tier medium when absent), build the link line, and —
when particle display is enabled and the link value is strictly
positive — build a particle system whose count is
`min(ceil(value × 2), maxParticles)` with `maxParticles` read from the
pool (falling back to 25 when unset). -/
def createLinkObject (env : MathEnv) (randoms : ℕ → ℚ) (link : Link)
    (showParticles : Bool) (particleSpeed particleSize : ℚ)
    (hasDocument : Bool) (state : Option ResourceManager) :
    Except String (LinkObject × Option ResourceManager) :=
  let state1 := match state with
    | none => (initLinkResources .medium hasDocument none).2
    | some rm => some rm
  match state1 with
  | none => .error "Failed to initialize link resources"
  | some rm =>
    let source := endpointPos link.source
    let target := endpointPos link.target
    let linkColor : ℤ := match link.color with
      | some c => if c = 0 then 0xaaaaaa else c
      | none => 0xaaaaaa
    let lineOpacity :=
      min (3/10 + (if link.value = 0 then 1 else link.value) * (1/20)) (4/5)
    let line : LineData :=
      { positions := [source.x, source.y, source.z, target.x, target.y, target.z],
        color := linkColor, opacity := lineOpacity }
    if showParticles = true ∧ 0 < link.value then
      let maxParticles : ℕ := match rm.getParameter "maxParticles" with
        | some v => if v = 0 then 25 else v
        | none => 25
      let particleCount : ℤ := min (Int.ceil (link.value * 2)) (maxParticles : ℤ)
      let particleSystem := createParticleSystem env randoms source target
        linkColor particleSpeed particleCount.toNat particleSize
      .ok ({ line := line, particles := some particleSystem }, state1)
    else
      .ok ({ line := line, particles := none }, state1)

/-- Particle count extractor used to state the count examples. -/
def particleCountOf (r : Except String (LinkObject × Option ResourceManager)) :
    Option ℕ :=
  match r with
  | .ok (obj, _) => obj.particles.map (fun ps => ps.metadata.count)
  | .error _ => none

/-- A link between two id-only endpoints with the given value, used to
state the particle-count examples. -/
def linkAB (v : ℚ) : Link :=
  { source := .ref "a", target := .ref "b", value := v }

/-- C5: with particle display enabled, a particle system is attached to
the link renderable exactly when the link value is strictly positive,
and its particle count is `min(ceil(value × 2), maxParticles)` for the
`maxParticles` parameter held by the resource pool; value 3 at tier
medium (max 25) gives 6 particles and value 20 at tier low (max 10)
gives 10. -/
theorem createLinkObject_particle_policy
    (env : MathEnv) (randoms : ℕ → ℚ) (link : Link) (speed psize : ℚ)
    (hasDocument : Bool) (rm : ResourceManager) (m : ℕ)
    (hm : rm.getParameter "maxParticles" = some m) (hm0 : m ≠ 0) :
    (∃ obj : LinkObject,
      createLinkObject env randoms link true speed psize hasDocument (some rm)
        = .ok (obj, some rm)
      ∧ (obj.particles.isSome ↔ 0 < link.value)
      ∧ ∀ ps, obj.particles = some ps →
          (ps.metadata.count : ℤ) = min (Int.ceil (link.value * 2)) (m : ℤ))
    ∧ particleCountOf (createLinkObject plainEnv (fun _ => 1/2) (linkAB 3)
        true (1/200) 1 true
        (some (initLinkResources .medium true none).1)) = some 6
    ∧ particleCountOf (createLinkObject plainEnv (fun _ => 1/2) (linkAB 20)
        true (1/200) 1 true
        (some (initLinkResources .low true none).1)) = some 10 := by
  refine ⟨?_, ?_, ?_⟩
  · simp only [createLinkObject, hm]
    by_cases hv : 0 < link.value
    · rw [if_pos (show True ∧ 0 < link.value from ⟨trivial, hv⟩)]
      refine ⟨_, rfl, by simp [hv], ?_⟩
      intro ps hps
      obtain rfl := Option.some.inj hps
      rw [if_neg hm0]
      simp only [createParticleSystem]
      exact Int.toNat_of_nonneg
        (le_min (Int.ceil_nonneg (by positivity)) (by positivity))
    · rw [if_neg (by simp [hv])]
      exact ⟨_, rfl, by simp [hv], by simp⟩
  · have hceil : (⌈(3:ℚ) * 2⌉ : ℤ) = 6 := by norm_num
    norm_num [particleCountOf, createLinkObject, createParticleSystem,
      initLinkResources, ResourceManager.getParameter, ResourceManager.empty,
      ResourceManager.addTexture, ResourceManager.addMaterial,
      ResourceManager.setParameter, getEntry, setEntry, endpointPos, linkAB,
      hceil, min_def]
    rfl
  · have hceil : (⌈(20:ℚ) * 2⌉ : ℤ) = 40 := by norm_num
    norm_num [particleCountOf, createLinkObject, createParticleSystem,
      initLinkResources, ResourceManager.getParameter, ResourceManager.empty,
      ResourceManager.addTexture, ResourceManager.addMaterial,
      ResourceManager.setParameter, getEntry, setEntry, endpointPos, linkAB,
      hceil, min_def]
    rfl

/-- C5 witness: the medium-tier pool, whose stored maxParticles is 25,
with the value-3 link. -/
theorem createLinkObject_particle_policy_witness :
    (∃ obj : LinkObject,
      createLinkObject plainEnv (fun _ => 1/2) (linkAB 3) true (1/200) 1
        true (some (initLinkResources .medium true none).1)
        = .ok (obj, some (initLinkResources .medium true none).1)
      ∧ (obj.particles.isSome ↔ 0 < (linkAB 3).value)
      ∧ ∀ ps, obj.particles = some ps →
          (ps.metadata.count : ℤ)
            = min (Int.ceil ((linkAB 3).value * 2)) ((25 : ℕ) : ℤ))
    ∧ particleCountOf (createLinkObject plainEnv (fun _ => 1/2) (linkAB 3)
        true (1/200) 1 true
        (some (initLinkResources .medium true none).1)) = some 6
    ∧ particleCountOf (createLinkObject plainEnv (fun _ => 1/2) (linkAB 20)
        true (1/200) 1 true
        (some (initLinkResources .low true none).1)) = some 10 :=
  createLinkObject_particle_policy plainEnv (fun _ => 1/2) (linkAB 3)
    (1/200) 1 true (initLinkResources .medium true none).1 25
    (by decide) (by decide)

theorem find_map_set {α : Type} (l : List (String × α)) (name : String)
    (v : α) (h : l.any (fun p => p.1 = name) = true) :
    (l.map (fun p => if p.1 = name then (name, v) else p)).find?
      (fun p => p.1 = name) = some (name, v) := by
  induction l with
  | nil => simp at h
  | cons p rest ih =>
    by_cases hp : p.1 = name
    · simp [hp]
    · simp only [List.any_cons, Bool.or_eq_true, decide_eq_true_eq] at h
      have hr : rest.any (fun p => p.1 = name) = true := by
        rcases h with h | h
        · exact absurd h hp
        · exact h
      simp only [List.map_cons, if_neg hp]
      rw [List.find?_cons_of_neg _ (by simpa using hp)]
      exact ih hr

theorem find_append_new {α : Type} (l : List (String × α)) (name : String)
    (v : α) (h : l.any (fun p => p.1 = name) = false) :
    (l ++ [(name, v)]).find? (fun p => p.1 = name) = some (name, v) := by
  induction l with
  | nil => simp
  | cons p rest ih =>
    simp only [List.any_cons, Bool.or_eq_false_iff, decide_eq_false_iff_not] at h
    obtain ⟨hp, hr⟩ := h
    simp only [List.cons_append]
    rw [List.find?_cons_of_neg _ (by simpa using hp)]
    exact ih (by simpa using hr)

theorem getEntry_setEntry {α : Type} (l : List (String × α)) (name : String)
    (v : α) : getEntry (setEntry l name v) name = some v := by
  unfold setEntry getEntry
  by_cases h : l.any (fun p => p.1 = name)
  · rw [if_pos h, find_map_set l name v h]
    rfl
  · rw [if_neg h, find_append_new l name v (Bool.not_eq_true _ ▸ h)]
    rfl

/-- The closure state of one orbital force instance
(`OrbitalForce.ts` lines 17-21): bound node and link collections, the
strength multiplier, and the advisory focal point. -/
structure OrbitalForceState where
  nodes : List Node
  links : List Link
  strength : ℚ
  focalPoint : Option Node
deriving DecidableEq, Repr

/-- A freshly created orbital force: empty bindings, strength 1, no
focal point. -/
def orbitalForceNew : OrbitalForceState :=
  { nodes := [], links := [], strength := 1, focalPoint := none }

/-- The `strength(value)` setter of the force handle. -/
def OrbitalForceState.setStrength (f : OrbitalForceState) (s : ℚ) :
    OrbitalForceState :=
  { f with strength := s }

/-- The d3 force simulation handle: its named force registry and
whether a tick handler has been registered on it. -/
structure SimulationState where
  forces : List (String × OrbitalForceState)
  tickHandlerInstalled : Bool
deriving DecidableEq, Repr

/-- The force-graph handle: `d3Force()` yields the simulation or null. -/
structure ForceGraph where
  d3Force : Option SimulationState
deriving DecidableEq, Repr

/-- `setupOrbitalPhysics` (`OrbitalForce.ts` lines 130-157): fail when
the force-graph reference is absent or its simulation is unavailable;
otherwise create the orbital force, set its strength, install it in
the registry under the slot name `orbital`, register the per-tick
rebinding hook, and return the force handle together with the updated
simulation. -/
def setupOrbitalPhysics (forceGraph : Option ForceGraph)
    (orbitalStrength : ℚ) :
    Except String (OrbitalForceState × SimulationState) :=
  match forceGraph with
  | none => .error "Force graph reference is required"
  | some fg =>
    match fg.d3Force with
    | none => .error "Simulation not available from force graph"
    | some sim =>
      let orbital := orbitalForceNew.setStrength orbitalStrength
      let sim1 : SimulationState :=
        { sim with forces := setEntry sim.forces "orbital" orbital,
                   tickHandlerInstalled := true }
      .ok (orbital, sim1)

/-- C9: `setupOrbitalPhysics` fails, synchronously to the caller,
exactly when it has no usable simulation handle — the force-graph
reference is absent or its simulation is unavailable; otherwise it
returns the force handle carrying the requested strength and the
simulation now holds that handle under the reserved slot `orbital`. -/
theorem setupOrbitalPhysics_spec (s : ℚ) :
    (setupOrbitalPhysics none s).isOk = false
    ∧ (∀ fg : ForceGraph, fg.d3Force = none →
        (setupOrbitalPhysics (some fg) s).isOk = false)
    ∧ (∀ (fg : ForceGraph) (sim : SimulationState), fg.d3Force = some sim →
        ∃ (orbital : OrbitalForceState) (sim1 : SimulationState),
          setupOrbitalPhysics (some fg) s = .ok (orbital, sim1)
          ∧ getEntry sim1.forces "orbital" = some orbital
          ∧ orbital.strength = s) := by
  refine ⟨rfl, ?_, ?_⟩
  · intro fg h
    simp only [setupOrbitalPhysics, h]
    rfl
  · intro fg sim h
    refine ⟨orbitalForceNew.setStrength s,
      { sim with
          forces := setEntry sim.forces "orbital" (orbitalForceNew.setStrength s),
          tickHandlerInstalled := true }, ?_, ?_, rfl⟩
    · simp [setupOrbitalPhysics, h]
    · exact getEntry_setEntry sim.forces "orbital" _

/-- C9 witness: a force graph with an empty simulation registry, and
one whose simulation is unavailable. -/
theorem setupOrbitalPhysics_spec_witness :
    ((setupOrbitalPhysics none (2 : ℚ)).isOk = false)
    ∧ ((setupOrbitalPhysics (some { d3Force := none }) (2 : ℚ)).isOk = false)
    ∧ (∃ (orbital : OrbitalForceState) (sim1 : SimulationState),
        setupOrbitalPhysics
          (some { d3Force := some { forces := [], tickHandlerInstalled := false } })
          (2 : ℚ) = .ok (orbital, sim1)
        ∧ getEntry sim1.forces "orbital" = some orbital
        ∧ orbital.strength = 2) :=
  ⟨(setupOrbitalPhysics_spec 2).1,
    (setupOrbitalPhysics_spec 2).2.1 { d3Force := none } rfl,
    (setupOrbitalPhysics_spec 2).2.2
      { d3Force := some { forces := [], tickHandlerInstalled := false } }
      { forces := [], tickHandlerInstalled := false } rfl⟩

/-- C10: once a resource pool has been built, every later call to its
init function — with any detail tier and document availability —
returns the already-built manager and leaves the module state (its
geometries, materials, textures and parameters) unchanged; a fresh
init after the first one is therefore a no-op regardless of tier, and
only the dispose function resets the module state to null. -/
theorem initResources_idempotent :
    (∀ (d : Detail) (doc : Bool) (rm : ResourceManager),
      initNodeResources d doc (some rm) = (rm, some rm))
    ∧ (∀ (d : Detail) (doc : Bool) (rm : ResourceManager),
      initLinkResources d doc (some rm) = (rm, some rm))
    ∧ (∀ (d1 d2 : Detail) (doc1 doc2 : Bool),
      initNodeResources d2 doc2 (initNodeResources d1 doc1 none).2
        = ((initNodeResources d1 doc1 none).1,
           (initNodeResources d1 doc1 none).2))
    ∧ (∀ (d1 d2 : Detail) (doc1 doc2 : Bool),
      initLinkResources d2 doc2 (initLinkResources d1 doc1 none).2
        = ((initLinkResources d1 doc1 none).1,
           (initLinkResources d1 doc1 none).2))
    ∧ (∀ state, disposeNodeResources state = none)
    ∧ (∀ state, disposeLinkResources state = none) := by
  refine ⟨fun d doc rm => rfl, fun d doc rm => rfl,
    fun d1 d2 doc1 doc2 => rfl, fun d1 d2 doc1 doc2 => rfl, ?_, ?_⟩
  · intro state
    cases state <;> rfl
  · intro state
    cases state <;> rfl
